import Mathlib

/-
Verification of the ALIEN task-execution pipeline.

Shallow embedding of the core modules:
  * output processor (src/unnamed/part_013): parseContent, parseActivityDecision,
    processHourlyOutput, processJournalOutput, processActivityOutput;
  * content writer / runway tracker (src/unnamed/part_009): getUrgencyLevel;
  * context builder (src/unnamed/part_012): calculateUrgencyLevel;
  * claude client (embedded in src/src/core/__tests__/context-builder.test.ts):
    generateContent retry loop, isRateLimitError, ClaudeClientError;
  * deploy trigger (src/src/website/deploy-trigger.ts): triggerDeploy retry loop;
  * scheduler (src/src/scheduler/index.ts): registerTask, getSchedulerStatus;
  * metrics store (src/src/survival/metrics.ts): loadFromFile, getMetrics, updateMetrics.

Modelling conventions: JS numbers are `Rat`; JS exceptions are `Except String`;
external dependencies (content writer, memory store, runway tracker, metrics
tracker, deploy trigger, fetch, the Anthropic transport, cron.validate,
JSON.parse) are oracle parameters whose per-call outcome is given up front,
and every dependency invocation is recorded in an explicit call trace.
Logging is pure observation and is omitted except where the surrounding code
returns it (scheduler registration).
-/

namespace Alien

/-! ## String helpers (JS `includes`, `toLowerCase`, fenced-block extraction) -/

/-- Does `pat` occur as a contiguous sublist of `hay`? (JS `String.prototype.includes`.) -/
def containsSubList (hay pat : List Char) : Bool :=
  match hay with
  | [] => pat.isEmpty
  | _ :: t => pat.isPrefixOf hay || containsSubList t pat

/-- Split `hay` at the first occurrence of `pat`: returns the part before and the
part after the occurrence, or `none` when `pat` does not occur. -/
def splitFirstSubList (hay pat : List Char) : Option (List Char × List Char) :=
  match hay with
  | [] => if pat.isEmpty then some ([], []) else none
  | c :: t =>
    if pat.isPrefixOf (c :: t) then some ([], (c :: t).drop pat.length)
    else
      match splitFirstSubList t pat with
      | some (pre, post) => some (c :: pre, post)
      | none => none

/-- JS `s.includes(pat)`. -/
def jsIncludes (s pat : String) : Bool :=
  containsSubList s.data pat.data

/-- Split a string at the first occurrence of `pat`. -/
def strSplitFirst (s pat : String) : Option (String × String) :=
  match splitFirstSubList s.data pat.data with
  | some (pre, post) => some (⟨pre⟩, ⟨post⟩)
  | none => none

/-- JS `s.toLowerCase()`, modelled as a character-wise lowering. -/
def jsToLower (s : String) : String :=
  ⟨s.data.map Char.toLower⟩

/-- JS `s.trim()`: strip leading and trailing whitespace (the core ASCII
whitespace characters). -/
def jsTrim (s : String) : String :=
  ⟨((s.data.dropWhile Char.isWhitespace).reverse.dropWhile Char.isWhitespace).reverse⟩

/-- JS `s.startsWith(pre)`. -/
def jsStartsWith (s pre : String) : Bool :=
  pre.data.isPrefixOf s.data

/-- JS `s.slice(n)` for a nonnegative start index. -/
def jsDrop (s : String) (n : Nat) : String :=
  ⟨s.data.drop n⟩

/-- JS `s.slice(0, n)` for a nonnegative end index. -/
def jsTake (s : String) (n : Nat) : String :=
  ⟨s.data.take n⟩

/-! ## Dynamic JSON values

JS values flowing out of `JSON.parse` are dynamically typed; the validation in
`parseActivityDecision` branches on their runtime shape, so the embedding uses
an explicit JSON value type. -/

/-- A decoded JSON value (the result of a successful `JSON.parse`). -/
inductive Json where
  | null
  | bool (b : Bool)
  | num (q : Rat)
  | str (s : String)
  | arr (elems : List Json)
  | obj (fields : List (String × Json))

/-- JS property access `v[key]`: `none` models `undefined`. -/
def Json.getField (j : Json) (key : String) : Option Json :=
  match j with
  | .obj fields => fields.lookup key
  | _ => none

/-- JS truthiness of a possibly-undefined value (`undefined`, `null`, `false`,
`0` and `""` are falsy; arrays and objects are truthy). -/
def jsTruthy (v : Option Json) : Bool :=
  match v with
  | none => false
  | some .null => false
  | some (.bool b) => b
  | some (.num q) => !(q == 0)
  | some (.str s) => !(s == "")
  | some (.arr _) => true
  | some (.obj _) => true

/-- Template-literal stringification used only to build error-message text
(approximates JS `String(v)`; the theorems do not depend on the inexact cases). -/
def jsDisplay (v : Option Json) : String :=
  match v with
  | none => "undefined"
  | some .null => "null"
  | some (.bool true) => "true"
  | some (.bool false) => "false"
  | some (.num q) => toString q
  | some (.str s) => s
  | some (.arr _) => ""
  | some (.obj _) => "[object Object]"

/-! ## Urgency tiers (part_009 `getUrgencyLevel`, part_012 `calculateUrgencyLevel`) -/

/-- The TS union type of urgency tiers. -/
inductive UrgencyLevel where
  | comfortable
  | focused
  | urgent
  | critical
deriving DecidableEq

/-- Rank with `critical` most urgent, for stating monotonicity. -/
def urgencyRank : UrgencyLevel → Nat
  | .comfortable => 0
  | .focused => 1
  | .urgent => 2
  | .critical => 3

/-- Runway tracker tier function (part_009 lines 221-226); note the `<= 14`
boundary for `focused`. -/
def getUrgencyLevel (runwayDays : Rat) : UrgencyLevel :=
  if runwayDays < 3 then .critical
  else if runwayDays < 7 then .urgent
  else if runwayDays ≤ 14 then .focused
  else .comfortable

/-- Context builder tier function (part_012 lines 94-99); uses a strict `< 14`
boundary, diverging from `getUrgencyLevel` at exactly 14. -/
def calculateUrgencyLevel (runwayDays : Rat) : UrgencyLevel :=
  if runwayDays < 3 then .critical
  else if runwayDays < 7 then .urgent
  else if runwayDays < 14 then .focused
  else .comfortable

/-! ## Output processor data model (part_013) -/

/-- Claude API response as consumed by the processors. The `usage`, `model` and
`stop_reason` fields are never read by part_013 and are omitted. -/
structure ClaudeResp where
  content : String
deriving DecidableEq

/-- `ProcessResult` (part_013 lines 69-76). -/
structure ProcessResult where
  success : Bool
  localSaved : Bool
  memorySaved : Bool
  deployed : Bool
  metricsUpdated : Bool
  errors : List String
deriving DecidableEq

/-- `ContentMetadata` (part_013 lines 56-64); `hour` is optional (absent for
journals), `timestamp` is supplied by the caller as the current instant. -/
structure ContentMetadata where
  day : Nat
  hour : Option Nat
  timestamp : String
  runway_days : Rat
  urgency : String
  current_strategy : String
  word_count : Nat
deriving DecidableEq

/-- Runway snapshot returned by the runway-tracker dependency (part_013
lines 133-140; `urgencyLevel` is a string in that interface). -/
structure RunwaySnapshot where
  currentDay : Rat
  daysRemaining : Rat
  runwayDays : Rat
  urgencyLevel : String
deriving DecidableEq

/-- Metrics snapshot returned by the metrics-tracker dependency (part_013
lines 121-128). -/
structure MetricsSnapshot where
  thingsShipped : Rat
  revenueTotal : Rat
  currentStrategy : String
deriving DecidableEq

/-- One recorded dependency invocation. Arguments are carried where a claim
inspects them; the flat metadata maps passed to the memory store are elided. -/
inductive DepCall where
  | getRunwayStatus
  | getMetrics
  | writeHourlyUpdate (day : Nat) (hour : Nat) (content : String) (m : ContentMetadata)
  | writeDailyJournal (day : Nat) (content : String) (m : ContentMetadata)
  | storeHourlyUpdate (content : String)
  | storeDailyJournal (content : String)
  | updateLanding
  | triggerDeploy
  | storeStrategicLearning
  | setStrategy (strategy : String)
deriving DecidableEq

/-- Behaviour of the injected dependencies (part_013 `OutputProcessorDeps`):
each call's outcome, `Except String` modelling a thrown error. Every method is
invoked at most once per pipeline run, so one outcome per method suffices. -/
structure Deps where
  getRunwayStatus : Except String RunwaySnapshot
  getMetrics : Except String MetricsSnapshot
  writeHourlyUpdate : Except String Unit
  writeDailyJournal : Except String Unit
  updateLanding : Except String Unit
  storeHourlyUpdate : Except String Bool
  storeDailyJournal : Except String Bool
  storeStrategicLearning : Except String Bool
  triggerDeploy : Except String Bool
  setStrategy : Except String Unit

/-- `parseContent` (part_013 lines 163-172): reject empty, then reject
whitespace-only, else return the trimmed content. -/
def parseContent (response : ClaudeResp) : Except String String :=
  if response.content = "" then .error "Empty response content from Claude"
  else if jsTrim response.content = "" then .error "Empty response content from Claude"
  else .ok (jsTrim response.content)

/-- Character-wise split on whitespace (the `/\s+/` separator collapses to
this after the empty pieces are filtered out). -/
def splitWsAux : List Char → List Char → List String
  | [], acc => [⟨acc.reverse⟩]
  | c :: t, acc =>
    if Char.isWhitespace c then ⟨acc.reverse⟩ :: splitWsAux t []
    else splitWsAux t (c :: acc)

/-- `countWords` (part_013 lines 222-224): split on whitespace, count the
non-empty pieces. -/
def countWords (content : String) : Nat :=
  ((splitWsAux content.data []).filter (fun w => !(w == ""))).length

/-- `createFailedResult` (part_013 lines 229-238). -/
def createFailedResult (errors : List String) : ProcessResult :=
  ⟨false, false, false, false, false, errors⟩

/-- `processHourlyOutput` (part_013 lines 251-390), returning the result plus
the dependency-call trace. Steps: parse; gather status (both dependencies are
started by `Promise.all`, the first rejection wins); critical local save (on
failure record the error and continue); best-effort memory store, landing
update and deploy trigger; `success := localSaved`. -/
def processHourlyOutput (response : ClaudeResp) (day hour : Nat) (now : String)
    (deps : Deps) : ProcessResult × List DepCall :=
  match parseContent response with
  | .error e => (createFailedResult [e], [])
  | .ok content =>
    let trace0 := [DepCall.getRunwayStatus, DepCall.getMetrics]
    match deps.getRunwayStatus, deps.getMetrics with
    | .error e, _ => (createFailedResult [e], trace0)
    | .ok _, .error e => (createFailedResult [e], trace0)
    | .ok runwayStatus, .ok metrics =>
      let metadata : ContentMetadata :=
        ⟨day, some hour, now, runwayStatus.runwayDays, runwayStatus.urgencyLevel,
          metrics.currentStrategy, countWords content⟩
      let (localSaved, errors1) :=
        match deps.writeHourlyUpdate with
        | .ok _ => (true, [])
        | .error e => (false, ["Local save failed: " ++ e])
      let trace1 := trace0 ++ [DepCall.writeHourlyUpdate day hour content metadata]
      let (memorySaved, errors2) :=
        match deps.storeHourlyUpdate with
        | .ok true => (true, [])
        | .ok false => (false, ["Memory store returned unsuccessful"])
        | .error e => (false, ["Memory store failed: " ++ e])
      let trace2 := trace1 ++ [DepCall.storeHourlyUpdate content]
      let (metricsUpdated, errors3) :=
        match deps.updateLanding with
        | .ok _ => (true, [])
        | .error e => (false, ["Landing update failed: " ++ e])
      let trace3 := trace2 ++ [DepCall.updateLanding]
      let (deployed, errors4) :=
        match deps.triggerDeploy with
        | .ok true => (true, [])
        | .ok false => (false, ["Deploy trigger returned false"])
        | .error e => (false, ["Deploy failed: " ++ e])
      let trace4 := trace3 ++ [DepCall.triggerDeploy]
      (⟨localSaved, localSaved, memorySaved, deployed, metricsUpdated,
        errors1 ++ errors2 ++ errors3 ++ errors4⟩, trace4)

/-- `processJournalOutput` (part_013 lines 403-544): identical shape to the
hourly pipeline with the journal writer and journal memory store; the short-
journal word-count check only logs a warning and is behaviourally inert. -/
def processJournalOutput (response : ClaudeResp) (day : Nat) (now : String)
    (deps : Deps) : ProcessResult × List DepCall :=
  match parseContent response with
  | .error e => (createFailedResult [e], [])
  | .ok content =>
    let trace0 := [DepCall.getRunwayStatus, DepCall.getMetrics]
    match deps.getRunwayStatus, deps.getMetrics with
    | .error e, _ => (createFailedResult [e], trace0)
    | .ok _, .error e => (createFailedResult [e], trace0)
    | .ok runwayStatus, .ok metrics =>
      let metadata : ContentMetadata :=
        ⟨day, none, now, runwayStatus.runwayDays, runwayStatus.urgencyLevel,
          metrics.currentStrategy, countWords content⟩
      let (localSaved, errors1) :=
        match deps.writeDailyJournal with
        | .ok _ => (true, [])
        | .error e => (false, ["Local save failed: " ++ e])
      let trace1 := trace0 ++ [DepCall.writeDailyJournal day content metadata]
      let (memorySaved, errors2) :=
        match deps.storeDailyJournal with
        | .ok true => (true, [])
        | .ok false => (false, ["Memory store returned unsuccessful"])
        | .error e => (false, ["Memory store failed: " ++ e])
      let trace2 := trace1 ++ [DepCall.storeDailyJournal content]
      let (metricsUpdated, errors3) :=
        match deps.updateLanding with
        | .ok _ => (true, [])
        | .error e => (false, ["Landing update failed: " ++ e])
      let trace3 := trace2 ++ [DepCall.updateLanding]
      let (deployed, errors4) :=
        match deps.triggerDeploy with
        | .ok true => (true, [])
        | .ok false => (false, ["Deploy trigger returned false"])
        | .error e => (false, ["Deploy failed: " ++ e])
      let trace4 := trace3 ++ [DepCall.triggerDeploy]
      (⟨localSaved, localSaved, memorySaved, deployed, metricsUpdated,
        errors1 ++ errors2 ++ errors3 ++ errors4⟩, trace4)

/-! ## Activity decision pipeline (part_013 lines 177-217 and 558-641) -/

/-- The six-value activity type enum checked by `parseActivityDecision`. -/
def activityTypeList : List String :=
  ["BUILD", "WRITE", "RESEARCH", "ANALYZE", "ITERATE", "SHIP"]

/-- Membership of a dynamic value in the enum via JS `includes` (strict
equality: only a string can match). -/
def isEnumType (v : Option Json) : Bool :=
  match v with
  | some (.str s) => activityTypeList.contains s
  | _ => false

/-- Is the dynamic value a string (`typeof v === "string"`)? -/
def isJsonStr (v : Option Json) : Bool :=
  match v with
  | some (.str _) => true
  | _ => false

/-- Is the dynamic value a number (`typeof v === "number"`)? -/
def isJsonNum (v : Option Json) : Bool :=
  match v with
  | some (.num _) => true
  | _ => false

/-- The per-activity loop of `parseActivityDecision` (part_013 lines 202-209):
enum-membership of `type`, then truthiness of `action` and `reasoning`.
No check on `duration_minutes` appears in the source. -/
def checkActivities (acts : List Json) : Except String Unit :=
  match acts with
  | [] => .ok ()
  | a :: rest =>
    if !(isEnumType (a.getField "type")) then
      .error ("Invalid activity type: " ++ jsDisplay (a.getField "type"))
    else if !(jsTruthy (a.getField "action") && jsTruthy (a.getField "reasoning")) then
      .error "Activity missing action or reasoning"
    else checkActivities rest

/-- The structural validation of `parseActivityDecision` after `JSON.parse`
(part_013 lines 191-209): `activities` must be an array (emptiness is not
checked), `urgency_assessment` a string, `confidence_in_strategy` a number,
then the per-activity loop. -/
def validateDecision (parsed : Json) : Except String Unit :=
  match parsed.getField "activities" with
  | some (.arr acts) =>
    if !(isJsonStr (parsed.getField "urgency_assessment")) then
      .error "Missing urgency_assessment"
    else if !(isJsonNum (parsed.getField "confidence_in_strategy")) then
      .error "Missing confidence_in_strategy"
    else checkActivities acts
  | _ => .error "Missing activities array"

/-- The fenced-code-block extraction of part_013 lines 181-185: the regex
takes the first backtick fence, optionally drops a `json` tag, captures lazily
up to the next fence and trims; with no complete fence the content is used
unchanged. -/
def extractFenced (content : String) : String :=
  match strSplitFirst content "```" with
  | none => content
  | some (_, rest) =>
    let rest2 := if jsStartsWith rest "json" then jsDrop rest 4 else rest
    match strSplitFirst rest2 "```" with
    | none => content
    | some (body, _) => jsTrim body

/-- `parseActivityDecision` (part_013 lines 177-217). `jsonDecode` is the
`JSON.parse` oracle. A `parseContent` failure propagates unwrapped (it is
thrown before the try block); decode and validation failures are wrapped with
the "Failed to parse activity decision JSON" prefix. On success the parsed
value is returned unchanged (the TS cast is a no-op). -/
def parseActivityDecision (jsonDecode : String → Except String Json)
    (response : ClaudeResp) : Except String Json :=
  match parseContent response with
  | .error e => .error e
  | .ok content =>
    match jsonDecode (extractFenced content) with
    | .error e => .error ("Failed to parse activity decision JSON: " ++ e)
    | .ok parsed =>
      match validateDecision parsed with
      | .error e => .error ("Failed to parse activity decision JSON: " ++ e)
      | .ok _ => .ok parsed

/-- `processActivityOutput` (part_013 lines 558-641). On a parse/validation
failure: a failed result with that single error, no decision, and an empty
call trace. On success: best-effort strategic-learning store when confidence
is below 0.5 and `strategy_notes` is truthy; best-effort strategy update when
`strategy_notes` mentions "pivot" and confidence is below 0.4; `success` is
`true` regardless of those side effects. The outer `Except` captures the one
uncaught path: `strategy_notes?.toLowerCase()` throws a `TypeError` when the
notes are a truthy non-string. -/
def processActivityOutput (jsonDecode : String → Except String Json)
    (response : ClaudeResp) (deps : Deps) :
    Except String ((ProcessResult × Option Json) × List DepCall) :=
  match parseActivityDecision jsonDecode response with
  | .error e => .ok ((createFailedResult [e], none), [])
  | .ok decision =>
    let conf : Rat :=
      match decision.getField "confidence_in_strategy" with
      | some (.num q) => q
      | _ => 0
    let notes := decision.getField "strategy_notes"
    let (memorySaved, errors1, trace1) :=
      if conf < mkRat 1 2 && jsTruthy notes then
        match deps.storeStrategicLearning with
        | .ok b => (b, [], [DepCall.storeStrategicLearning])
        | .error e =>
          (false, ["Strategic learning store failed: " ++ e], [DepCall.storeStrategicLearning])
      else (false, [], [])
    let pivotCheck : Except String Bool :=
      match notes with
      | none => .ok false
      | some .null => .ok false
      | some (.str s) => .ok (jsIncludes (jsToLower s) "pivot")
      | some _ => .error "TypeError: toLowerCase is not a function"
    match pivotCheck with
    | .error e => .error e
    | .ok pivot =>
      let (metricsUpdated, errors2, trace2) :=
        if pivot && conf < mkRat 2 5 then
          let newStrategy :=
            "Pivoting: " ++
              (match decision.getField "urgency_assessment" with
              | some (.str s) => jsTake s 100
              | _ => "")
          match deps.setStrategy with
          | .ok _ => (true, [], [DepCall.setStrategy newStrategy])
          | .error e =>
            (false, ["Strategy update failed: " ++ e], [DepCall.setStrategy newStrategy])
        else (false, [], [])
      .ok ((⟨true, false, memorySaved, false, metricsUpdated, errors1 ++ errors2⟩,
        some decision), trace1 ++ trace2)

/-! ## Claude client (claude-client source embedded in
src/src/core/__tests__/context-builder.test.ts) -/

/-- A JS `Error` as inspected by `isRateLimitError`: name, message, and an
optional numeric `status` property. -/
structure JsErr where
  name : String
  message : String
  status : Option Nat
deriving DecidableEq

/-- Successful `generateContent` result (text extraction from the block list
is elided: the claims concern the retry/error path, and the transport oracle
returns the massaged value directly). -/
structure GenerateContentResponse where
  content : String
  inputTokens : Nat
  outputTokens : Nat
deriving DecidableEq

/-- `isRateLimitError`: name equal to "RateLimitError", or a lowercased
message containing "rate limit", or a 429 status. -/
def isRateLimitError (e : JsErr) : Bool :=
  e.name == "RateLimitError"
    || jsIncludes (jsToLower e.message) "rate limit"
    || e.status == some 429

/-- The typed error thrown when all retries are exhausted. -/
structure ClaudeClientError where
  message : String
  cause : Option JsErr
  isRateLimit : Bool
deriving DecidableEq

/-- The exhaustion error built after the loop: message wraps the last cause's
message, and the rate-limit flag is recomputed from the last cause. -/
def mkExhaustedError (last : Option JsErr) : ClaudeClientError :=
  ⟨"Failed after 3 attempts: " ++
      (match last with
      | some e => e.message
      | none => "undefined"),
    last,
    match last with
    | some e => isRateLimitError e
    | none => false⟩

/-- The retry loop of `generateContent`: `fuel` counts attempts remaining
(starting at 3), `attempt` is the 1-based attempt number, and the accumulators
record the number of transport calls and the backoff sleeps (ms) performed.
A sleep of `1000 * 2 ^ (attempt - 1)` occurs only when attempts remain. -/
def genLoop (transport : Nat → Except JsErr GenerateContentResponse) :
    Nat → Nat → Option JsErr → Nat → List Nat →
    Except ClaudeClientError GenerateContentResponse × Nat × List Nat
  | 0, _, last, calls, sleeps => (.error (mkExhaustedError last), calls, sleeps)
  | fuel + 1, attempt, _, calls, sleeps =>
    match transport attempt with
    | .ok r => (.ok r, calls + 1, sleeps)
    | .error e =>
      let sleeps2 := if attempt < 3 then sleeps ++ [1000 * 2 ^ (attempt - 1)] else sleeps
      genLoop transport fuel (attempt + 1) (some e) (calls + 1) sleeps2

/-- `generateContent` with the Anthropic call abstracted as a per-attempt
transport oracle: returns the outcome, the number of transport invocations,
and the list of backoff sleeps. -/
def generateContent (transport : Nat → Except JsErr GenerateContentResponse) :
    Except ClaudeClientError GenerateContentResponse × Nat × List Nat :=
  genLoop transport 3 1 none 0 []

/-! ## Deploy trigger (src/src/website/deploy-trigger.ts) -/

/-- Outcome of one `fetch` to the deploy hook: a rejected promise, or a
response with its `ok` flag (2xx) and whether reading the JSON body throws.
The body is only read on a 2xx response. -/
inductive FetchOutcome where
  | reject (msg : String)
  | response (ok : Bool) (jsonFails : Bool)
deriving DecidableEq

/-- Does this outcome complete the deploy loop successfully (2xx and a
readable body)? -/
def fetchSucceeds (o : FetchOutcome) : Bool :=
  match o with
  | .response true false => true
  | _ => false

/-- The retry loop of `triggerDeploy`: `fuel` is attempts remaining (from 3),
`calls` the 0-based attempt index. Rejections and non-2xx responses are both
swallowed and retried; backoff delays do not affect the returned value and are
not recorded. -/
def deployLoop (transport : Nat → FetchOutcome) : Nat → Nat → Bool × Nat
  | 0, calls => (false, calls)
  | fuel + 1, calls =>
    match transport calls with
    | .response true false => (true, calls + 1)
    | _ => deployLoop transport fuel (calls + 1)

/-- `triggerDeploy` with `fetch` abstracted as a per-attempt oracle: returns
the boolean outcome and the number of POST calls made; the function is total,
modelling "never throws". -/
def triggerDeploy (transport : Nat → FetchOutcome) : Bool × Nat :=
  deployLoop transport 3 0

/-! ## Scheduler (src/src/scheduler/index.ts) -/

/-- A registry entry; the handler and the started cron job do not affect
registration or status and are omitted. -/
structure ScheduledTask where
  name : String
  schedule : String
deriving DecidableEq

/-- `registerTask` with `cron.validate` abstracted as an oracle: an invalid
expression logs an error (returned as `some message`) and leaves the registry
unchanged; a valid one appends the task. -/
def registerTask (validate : String → Bool) (tasks : List ScheduledTask)
    (name schedule : String) : List ScheduledTask × Option String :=
  if validate schedule then (tasks ++ [⟨name, schedule⟩], none)
  else (tasks, some ("Invalid cron schedule for task: " ++ name))

/-- `getSchedulerStatus`: the `(name, schedule)` list of the registry. -/
def getSchedulerStatus (tasks : List ScheduledTask) : List (String × String) :=
  tasks.map (fun t => (t.name, t.schedule))

/-! ## Metrics store (src/src/survival/metrics.ts) -/

/-- A `keyMetrics` value: `string | number | boolean`. -/
inductive KMValue where
  | str (s : String)
  | num (q : Rat)
  | bool (b : Bool)
deriving DecidableEq

/-- `Metrics`; `keyMetrics` is an association list standing for the JS object
(keys unique, as produced by `JSON.parse`). -/
structure Metrics where
  thingsShipped : Rat
  revenueTotal : Rat
  currentStrategy : String
  keyMetrics : List (String × KMValue)
deriving DecidableEq

/-- `DEFAULT_METRICS`. -/
def DEFAULT_METRICS : Metrics := ⟨0, 0, "", []⟩

/-- A `Partial<Metrics>` update: a field is replaced exactly when present. -/
structure MetricsUpdate where
  thingsShipped : Option Rat
  revenueTotal : Option Rat
  currentStrategy : Option String
  keyMetrics : Option (List (String × KMValue))

/-- The metrics file on disk: absent, present but not valid JSON, or a valid
record. -/
inductive DiskFile where
  | absent
  | corrupt (raw : String)
  | valid (m : Metrics)
deriving DecidableEq

/-- Module state: the in-memory cache and the disk file. The best-effort
remote mirror swallows every error and holds no authoritative state, so it is
not modelled. -/
structure MetricsState where
  cache : Option Metrics
  disk : DiskFile
deriving DecidableEq

/-- `loadFromFile`: a missing file or a JSON.parse failure (caught) both yield
a copy of the defaults; a valid file yields its record. -/
def loadFromFile (disk : DiskFile) : Metrics :=
  match disk with
  | .valid m => m
  | _ => DEFAULT_METRICS

/-- `getMetrics`: lazily load the cache from disk on first call, then return a
copy of the cached record (copies are identities here). -/
def getMetrics (s : MetricsState) : Metrics × MetricsState :=
  match s.cache with
  | some m => (m, s)
  | none =>
    let m := loadFromFile s.disk
    (m, ⟨some m, s.disk⟩)

/-- JS object-spread merge of two string-keyed maps: keys of `base` keep their
order with values overridden by `upd`, then the new keys of `upd` follow. -/
def spreadMerge (base upd : List (String × KMValue)) : List (String × KMValue) :=
  base.map (fun p =>
    match upd.lookup p.1 with
    | some v => (p.1, v)
    | none => p)
  ++ upd.filter (fun p => (base.lookup p.1).isNone)

/-- The merge `{...current, ...partial-update, keyMetrics: merged}`: scalar
fields present in the update replace, `keyMetrics` shallow-merges (an absent
update map behaves as the empty object via `|| {}`). -/
def applyUpdate (current : Metrics) (p : MetricsUpdate) : Metrics :=
  ⟨p.thingsShipped.getD current.thingsShipped,
    p.revenueTotal.getD current.revenueTotal,
    p.currentStrategy.getD current.currentStrategy,
    spreadMerge current.keyMetrics (p.keyMetrics.getD [])⟩

/-- `updateMetrics`: read through the cache, merge, set the cache, persist the
full merged record to disk (`saveToFile`), best-effort mirror remotely
(stateless here), and return a copy of the merged record. -/
def updateMetrics (s : MetricsState) (p : MetricsUpdate) : Metrics × MetricsState :=
  let (current, _) := getMetrics s
  let updated := applyUpdate current p
  (updated, ⟨some updated, DiskFile.valid updated⟩)

/-! ## Concrete fixtures for witnesses and counterexamples -/

/-- Dependency set whose every call succeeds. -/
def depsAllOk : Deps :=
  ⟨.ok ⟨5, 95, 10, "focused"⟩, .ok ⟨2, 0, "strat"⟩, .ok (), .ok (), .ok (),
    .ok true, .ok true, .ok true, .ok true, .ok ()⟩

/-- Dependency set where both local content-store writes throw and everything
else succeeds. -/
def depsLocalFail : Deps :=
  ⟨.ok ⟨5, 95, 10, "focused"⟩, .ok ⟨2, 0, "strat"⟩, .error "disk full",
    .error "disk full", .ok (), .ok true, .ok true, .ok true, .ok true, .ok ()⟩

/-- A decoded activity decision whose single activity has
`duration_minutes = 0` (not positive) and which is otherwise well-formed. -/
def zeroDurationDecision : Json :=
  .obj [("activities", .arr [.obj [("type", .str "BUILD"), ("action", .str "a"),
    ("reasoning", .str "r"), ("duration_minutes", .num 0)]]),
    ("urgency_assessment", .str "ok"), ("confidence_in_strategy", .num 1)]

/-- Transport that fails every attempt with a rate-limited error. -/
def rlErr : JsErr := ⟨"Error", "rate limit exceeded", some 429⟩

/-- Always-failing transport for the claude client. -/
def failingTransport : Nat → Except JsErr GenerateContentResponse :=
  fun _ => .error rlErr

/-- Transport failing on attempt 1 and succeeding on attempt 2. -/
def flakyTransport : Nat → Except JsErr GenerateContentResponse :=
  fun n => if n < 2 then .error ⟨"Error", "boom", none⟩ else .ok ⟨"ok", 1, 2⟩

/-! ## Theorems -/

/-- C1: for every response with non-empty trimmed content and every dependency
set, if the local content-store write throws, `processHourlyOutput` and
`processJournalOutput` record the error, set `localSaved = false`, still invoke
every remaining best-effort stage (memory store, landing update, deploy
trigger — shown by the full call trace), and return a result whose `success`
field equals `localSaved`. -/
theorem continue_after_critical_save_failure
    (response : ClaudeResp) (day hour : Nat) (now : String) (deps : Deps)
    (content : String) (rs : RunwaySnapshot) (mv : MetricsSnapshot) (e e' : String)
    (hp : parseContent response = .ok content)
    (hr : deps.getRunwayStatus = .ok rs)
    (hm : deps.getMetrics = .ok mv)
    (hw : deps.writeHourlyUpdate = .error e)
    (hj : deps.writeDailyJournal = .error e') :
    ((processHourlyOutput response day hour now deps).1.localSaved = false
      ∧ (processHourlyOutput response day hour now deps).1.success =
          (processHourlyOutput response day hour now deps).1.localSaved
      ∧ ("Local save failed: " ++ e) ∈ (processHourlyOutput response day hour now deps).1.errors
      ∧ (processHourlyOutput response day hour now deps).2 =
          [.getRunwayStatus, .getMetrics,
            .writeHourlyUpdate day hour content
              ⟨day, some hour, now, rs.runwayDays, rs.urgencyLevel,
                mv.currentStrategy, countWords content⟩,
            .storeHourlyUpdate content, .updateLanding, .triggerDeploy])
    ∧ ((processJournalOutput response day now deps).1.localSaved = false
      ∧ (processJournalOutput response day now deps).1.success =
          (processJournalOutput response day now deps).1.localSaved
      ∧ ("Local save failed: " ++ e') ∈ (processJournalOutput response day now deps).1.errors
      ∧ (processJournalOutput response day now deps).2 =
          [.getRunwayStatus, .getMetrics,
            .writeDailyJournal day content
              ⟨day, none, now, rs.runwayDays, rs.urgencyLevel,
                mv.currentStrategy, countWords content⟩,
            .storeDailyJournal content, .updateLanding, .triggerDeploy]) := by
  rcases h4 : deps.storeHourlyUpdate with e4 | (_ | _) <;>
    rcases h4j : deps.storeDailyJournal with e4j | (_ | _) <;>
    rcases h5 : deps.updateLanding with e5 | _ <;>
    rcases h6 : deps.triggerDeploy with e6 | (_ | _) <;>
    simp [processHourlyOutput, processJournalOutput, hp, hr, hm, hw, hj, h4, h4j, h5, h6]

/-- Witness for C1 at a concrete response and dependency set. -/
theorem continue_after_critical_save_failure_witness :
    ((processHourlyOutput ⟨"hello world"⟩ 5 10 "T" depsLocalFail).1.localSaved = false
      ∧ (processHourlyOutput ⟨"hello world"⟩ 5 10 "T" depsLocalFail).1.success =
          (processHourlyOutput ⟨"hello world"⟩ 5 10 "T" depsLocalFail).1.localSaved
      ∧ ("Local save failed: " ++ "disk full") ∈
          (processHourlyOutput ⟨"hello world"⟩ 5 10 "T" depsLocalFail).1.errors
      ∧ (processHourlyOutput ⟨"hello world"⟩ 5 10 "T" depsLocalFail).2 =
          [.getRunwayStatus, .getMetrics,
            .writeHourlyUpdate 5 10 "hello world"
              ⟨5, some 10, "T", 10, "focused", "strat", countWords "hello world"⟩,
            .storeHourlyUpdate "hello world", .updateLanding, .triggerDeploy])
    ∧ ((processJournalOutput ⟨"hello world"⟩ 5 "T" depsLocalFail).1.localSaved = false
      ∧ (processJournalOutput ⟨"hello world"⟩ 5 "T" depsLocalFail).1.success =
          (processJournalOutput ⟨"hello world"⟩ 5 "T" depsLocalFail).1.localSaved
      ∧ ("Local save failed: " ++ "disk full") ∈
          (processJournalOutput ⟨"hello world"⟩ 5 "T" depsLocalFail).1.errors
      ∧ (processJournalOutput ⟨"hello world"⟩ 5 "T" depsLocalFail).2 =
          [.getRunwayStatus, .getMetrics,
            .writeDailyJournal 5 "hello world"
              ⟨5, none, "T", 10, "focused", "strat", countWords "hello world"⟩,
            .storeDailyJournal "hello world", .updateLanding, .triggerDeploy]) :=
  continue_after_critical_save_failure ⟨"hello world"⟩ 5 10 "T" depsLocalFail
    "hello world" ⟨5, 95, 10, "focused"⟩ ⟨2, 0, "strat"⟩ "disk full" "disk full"
    rfl rfl rfl rfl rfl

/-- C3: for every response whose content is empty or whitespace-only,
`processHourlyOutput` fails with the single "Empty response" error, all result
flags false, and an empty dependency-call trace. -/
theorem empty_content_aborts_without_calls
    (response : ClaudeResp) (day hour : Nat) (now : String) (deps : Deps)
    (h : jsTrim response.content = "") :
    processHourlyOutput response day hour now deps =
      (⟨false, false, false, false, false, ["Empty response content from Claude"]⟩, [])
    ∧ jsIncludes "Empty response content from Claude" "Empty response" = true := by
  refine ⟨?_, by decide⟩
  by_cases hc : response.content = "" <;>
    simp [processHourlyOutput, parseContent, createFailedResult, hc, h]

/-- Witness for C3 at a whitespace-only response. -/
theorem empty_content_aborts_without_calls_witness :
    processHourlyOutput ⟨"  "⟩ 5 10 "T" depsAllOk =
      (⟨false, false, false, false, false, ["Empty response content from Claude"]⟩, [])
    ∧ jsIncludes "Empty response content from Claude" "Empty response" = true :=
  empty_content_aborts_without_calls ⟨"  "⟩ 5 10 "T" depsAllOk rfl

theorem checkActivities_ok_iff (acts : List Json) :
    checkActivities acts = .ok () ↔
      ∀ a ∈ acts, isEnumType (a.getField "type") = true
        ∧ jsTruthy (a.getField "action") = true
        ∧ jsTruthy (a.getField "reasoning") = true := by
  induction acts with
  | nil => simp [checkActivities]
  | cons a rest ih =>
    by_cases h1 : isEnumType (a.getField "type") = true
    · by_cases h2 : jsTruthy (a.getField "action") = true
      · by_cases h3 : jsTruthy (a.getField "reasoning") = true
        · simp [checkActivities, h1, h2, h3, ih]
        · simp [checkActivities, h1, h2, h3]
      · simp [checkActivities, h1, h2]
    · simp [checkActivities, h1]

theorem validateDecision_ok_iff (j : Json) :
    validateDecision j = .ok () ↔
      ∃ acts, j.getField "activities" = some (.arr acts)
        ∧ isJsonStr (j.getField "urgency_assessment") = true
        ∧ isJsonNum (j.getField "confidence_in_strategy") = true
        ∧ ∀ a ∈ acts, isEnumType (a.getField "type") = true
            ∧ jsTruthy (a.getField "action") = true
            ∧ jsTruthy (a.getField "reasoning") = true := by
  rcases hA : j.getField "activities" with _ | v
  · simp [validateDecision, hA]
  · rcases v with _ | b | q | s | acts | fields
    · simp [validateDecision, hA]
    · simp [validateDecision, hA]
    · simp [validateDecision, hA]
    · simp [validateDecision, hA]
    · by_cases hU : isJsonStr (j.getField "urgency_assessment") = true
      · by_cases hC : isJsonNum (j.getField "confidence_in_strategy") = true
        · simp [validateDecision, hA, hU, hC, checkActivities_ok_iff]
        · simp [validateDecision, hA, hU, hC]
      · simp [validateDecision, hA, hU]
    · simp [validateDecision, hA]

/-- C2 (amended): structural validation requires `activities` to be an array
(possibly empty) whose every element has a `type` in the 6-value enum and
truthy `action` and `reasoning`, plus a string `urgency_assessment` and a
numeric `confidence_in_strategy`; `duration_minutes` is not validated. Any
violation yields `success:false`, no decision, a single descriptive error, and
no dependency call. -/
theorem activity_validation_characterization
    (jsonDecode : String → Except String Json) (response : ClaudeResp) (deps : Deps) :
    (∀ e, parseActivityDecision jsonDecode response = .error e →
      processActivityOutput jsonDecode response deps =
        .ok ((createFailedResult [e], none), []))
    ∧ (∀ j : Json, validateDecision j = .ok () ↔
        ∃ acts, j.getField "activities" = some (.arr acts)
          ∧ isJsonStr (j.getField "urgency_assessment") = true
          ∧ isJsonNum (j.getField "confidence_in_strategy") = true
          ∧ ∀ a ∈ acts, isEnumType (a.getField "type") = true
              ∧ jsTruthy (a.getField "action") = true
              ∧ jsTruthy (a.getField "reasoning") = true) := by
  constructor
  · intro e he
    simp [processActivityOutput, he]
  · intro j
    exact validateDecision_ok_iff j

/-- Witness for C2 (amended) at a failing decode: a single wrapped error, no
decision, and no dependency call. -/
theorem activity_validation_characterization_witness :
    processActivityOutput (fun _ => .error "bad") ⟨"x"⟩ depsAllOk =
      .ok ((createFailedResult ["Failed to parse activity decision JSON: bad"], none), []) :=
  (activity_validation_characterization (fun _ => .error "bad") ⟨"x"⟩ depsAllOk).1
    "Failed to parse activity decision JSON: bad" rfl

/-- C2 counterexample: a decision whose single activity has
`duration_minutes = 0` — not positive, so the claim as stated demands
`success:false` — passes validation and the pipeline returns `success:true`. -/
theorem activity_validation_accepts_zero_duration :
    processActivityOutput (fun _ => .ok zeroDurationDecision) ⟨"x"⟩ depsAllOk =
      .ok ((⟨true, false, false, false, false, []⟩, some zeroDurationDecision), []) :=
  rfl

theorem containsSubList_map_toLower (hay pat : List Char)
    (hp : pat.map Char.toLower = pat) (h : containsSubList hay pat = true) :
    containsSubList (hay.map Char.toLower) pat = true := by
  induction hay with
  | nil => simpa [containsSubList] using h
  | cons c t ih =>
    rw [containsSubList, Bool.or_eq_true] at h
    rw [List.map_cons, containsSubList, Bool.or_eq_true]
    rcases h with h | h
    · left
      have hpre : pat <+: c :: t := List.isPrefixOf_iff_prefix.mp h
      have : pat.map Char.toLower <+: (c :: t).map Char.toLower := hpre.map Char.toLower
      rw [hp] at this
      rw [List.map_cons] at this
      exact List.isPrefixOf_iff_prefix.mpr this
    · right
      exact ih h

theorem jsIncludes_toLower_of_jsIncludes (s pat : String)
    (hp : jsToLower pat = pat) (h : jsIncludes s pat = true) :
    jsIncludes (jsToLower s) pat = true := by
  have hp' : pat.data.map Char.toLower = pat.data := congrArg String.data hp
  exact containsSubList_map_toLower s.data pat.data hp' h

theorem genLoop_calls_le (transport : Nat → Except JsErr GenerateContentResponse) :
    ∀ (fuel attempt : Nat) (last : Option JsErr) (calls : Nat) (sleeps : List Nat),
      (genLoop transport fuel attempt last calls sleeps).2.1 ≤ calls + fuel := by
  intro fuel
  induction fuel with
  | zero => intro attempt last calls sleeps; simp [genLoop]
  | succ n ih =>
    intro attempt last calls sleeps
    rcases ht : transport attempt with e | r
    · simp only [genLoop, ht]
      have := ih (attempt + 1) (some e) (calls + 1)
        (if attempt < 3 then sleeps ++ [1000 * 2 ^ (attempt - 1)] else sleeps)
      omega
    · simp [genLoop, ht]

/-- C4: `generateContent` makes at most 3 attempts; between consecutive failed
attempts it sleeps `1000 * 2 ^ (attempt - 1)` ms (1000 then 2000); when the
transport fails all 3 attempts it is invoked exactly 3 times and the typed
error carries the last cause and the rate-limit flag, which is set whenever
the last cause has name "RateLimitError", a message containing "rate limit",
or status 429. -/
theorem generate_content_bounded_retry
    (transport : Nat → Except JsErr GenerateContentResponse)
    (e1 e2 e3 : JsErr) (r : GenerateContentResponse) :
    (generateContent transport).2.1 ≤ 3
    ∧ (transport 1 = .error e1 → transport 2 = .ok r →
        generateContent transport = (.ok r, 2, [1000]))
    ∧ (transport 1 = .error e1 → transport 2 = .error e2 → transport 3 = .error e3 →
        generateContent transport =
          (.error ⟨"Failed after 3 attempts: " ++ e3.message, some e3, isRateLimitError e3⟩,
            3, [1000, 2000])
        ∧ (e3.name = "RateLimitError" ∨ jsIncludes e3.message "rate limit" = true
            ∨ e3.status = some 429 → isRateLimitError e3 = true)) := by
  refine ⟨genLoop_calls_le transport 3 1 none 0 [], ?_, ?_⟩
  · intro h1 h2
    simp [generateContent, genLoop, h1, h2]
  · intro h1 h2 h3
    constructor
    · simp [generateContent, genLoop, h1, h2, h3, mkExhaustedError]
    · intro hcond
      rcases hcond with hn | hm | hs
      · simp [isRateLimitError, hn]
      · have := jsIncludes_toLower_of_jsIncludes e3.message "rate limit" (by decide) hm
        simp [isRateLimitError, this]
      · simp [isRateLimitError, hs]

/-- Witness for C4: the all-fail scenario at a rate-limited transport and the
fail-then-succeed scenario at a flaky transport. -/
theorem generate_content_bounded_retry_witness :
    (generateContent failingTransport =
      (.error ⟨"Failed after 3 attempts: " ++ rlErr.message, some rlErr, isRateLimitError rlErr⟩,
        3, [1000, 2000])
      ∧ (rlErr.name = "RateLimitError" ∨ jsIncludes rlErr.message "rate limit" = true
          ∨ rlErr.status = some 429 → isRateLimitError rlErr = true))
    ∧ generateContent flakyTransport = (.ok ⟨"ok", 1, 2⟩, 2, [1000]) :=
  ⟨(generate_content_bounded_retry failingTransport rlErr rlErr rlErr
      ⟨"ok", 1, 2⟩).2.2 rfl rfl rfl,
    (generate_content_bounded_retry flakyTransport ⟨"Error", "boom", none⟩
      ⟨"Error", "boom", none⟩ ⟨"Error", "boom", none⟩ ⟨"ok", 1, 2⟩).2.1 rfl rfl⟩

theorem deployLoop_calls_le (transport : Nat → FetchOutcome) :
    ∀ (fuel calls : Nat), (deployLoop transport fuel calls).2 ≤ calls + fuel := by
  intro fuel
  induction fuel with
  | zero => intro calls; simp [deployLoop]
  | succ n ih =>
    intro calls
    rcases ht : transport calls with m | ⟨b, j⟩
    · simp only [deployLoop, ht]
      have := ih (calls + 1)
      omega
    · rcases b with _ | _
      · simp only [deployLoop, ht]
        have := ih (calls + 1)
        omega
      · rcases j with _ | _
        · simp [deployLoop, ht]
        · simp only [deployLoop, ht]
          have := ih (calls + 1)
          omega

/-- C5 counterexample: a 2xx response whose `response.json()` throws is
swallowed inside the try block and retried, so a transport whose first call is
2xx with an unreadable body yields `(false, 3)` — refuting the claim's "a
first-call 2xx returns true after exactly 1 call" at this concrete input. -/
theorem deploy_retries_unreadable_2xx_body :
    triggerDeploy (fun _ => .response true true) = (false, 3)
    ∧ ((false, 3) : Bool × Nat) ≠ (true, 1) := by
  exact ⟨rfl, by decide⟩

/-- C5 (amended): `triggerDeploy` makes at most 3 POST calls and never throws
(it is a total boolean-valued function): non-2xx twice then 2xx with a
readable JSON body returns `true` after exactly 3 calls; a transport whose
first three attempts never succeed (rejecting, non-2xx, or 2xx with an
unreadable body) returns `false` after exactly 3 calls; a first-call 2xx with
a readable body returns `true` after exactly 1 call. -/
theorem trigger_deploy_bounded_retry (transport : Nat → FetchOutcome)
    (j0 j1 : Bool) :
    (triggerDeploy transport).2 ≤ 3
    ∧ (transport 0 = .response false j0 → transport 1 = .response false j1 →
        transport 2 = .response true false → triggerDeploy transport = (true, 3))
    ∧ ((∀ i, i < 3 → fetchSucceeds (transport i) = false) →
        triggerDeploy transport = (false, 3))
    ∧ (transport 0 = .response true false → triggerDeploy transport = (true, 1)) := by
  refine ⟨deployLoop_calls_le transport 3 0, ?_, ?_, ?_⟩
  · intro h0 h1 h2
    simp [triggerDeploy, deployLoop, h0, h1, h2]
  · intro h
    have h0 := h 0 (by omega)
    have h1 := h 1 (by omega)
    have h2 := h 2 (by omega)
    rcases ht0 : transport 0 with m0 | ⟨_ | _, _ | _⟩ <;>
      rcases ht1 : transport 1 with m1 | ⟨_ | _, _ | _⟩ <;>
      rcases ht2 : transport 2 with m2 | ⟨_ | _, _ | _⟩ <;>
      rw [ht0] at h0 <;> rw [ht1] at h1 <;> rw [ht2] at h2 <;>
      simp_all [triggerDeploy, deployLoop, fetchSucceeds]
  · intro h0
    simp [triggerDeploy, deployLoop, h0]

/-- Witness for C5: the three scenarios at concrete transports. -/
theorem trigger_deploy_bounded_retry_witness :
    triggerDeploy (fun i => if i < 2 then .response false false else .response true false) =
      (true, 3)
    ∧ triggerDeploy (fun _ => .reject "down") = (false, 3)
    ∧ triggerDeploy (fun _ => .response true false) = (true, 1) :=
  ⟨(trigger_deploy_bounded_retry
      (fun i => if i < 2 then .response false false else .response true false)
      false false).2.1 rfl rfl rfl,
    (trigger_deploy_bounded_retry (fun _ => .reject "down") false false).2.2.1
      (fun _ _ => rfl),
    (trigger_deploy_bounded_retry (fun _ => .response true false) false false).2.2.2 rfl⟩

/-- C6 counterexample: the runway tracker maps exactly 14 runway days to
`focused`, not `comfortable` as the claim states (its `focused` guard is
`runwayDays <= 14`). -/
theorem urgency_at_fourteen_not_comfortable :
    getUrgencyLevel 14 = .focused ∧ UrgencyLevel.focused ≠ .comfortable := by
  decide

/-- C6 (amended): `getUrgencyLevel` returns `critical` when days < 3, `urgent`
when 3 ≤ days < 7, `focused` when 7 ≤ days ≤ 14 (14 included), and
`comfortable` when days > 14. -/
theorem urgency_thresholds (d : Rat) :
    (d < 3 → getUrgencyLevel d = .critical)
    ∧ (3 ≤ d → d < 7 → getUrgencyLevel d = .urgent)
    ∧ (7 ≤ d → d ≤ 14 → getUrgencyLevel d = .focused)
    ∧ (14 < d → getUrgencyLevel d = .comfortable) := by
  refine ⟨fun h => ?_, fun h1 h2 => ?_, fun h1 h2 => ?_, fun h => ?_⟩ <;>
    simp only [getUrgencyLevel] <;> split_ifs <;> first | rfl | linarith

/-- Witness for C6 (amended) at one point in each tier. -/
theorem urgency_thresholds_witness :
    getUrgencyLevel 2 = .critical ∧ getUrgencyLevel 5 = .urgent
      ∧ getUrgencyLevel 10 = .focused ∧ getUrgencyLevel 20 = .comfortable :=
  ⟨(urgency_thresholds 2).1 (by norm_num),
    (urgency_thresholds 5).2.1 (by norm_num) (by norm_num),
    (urgency_thresholds 10).2.2.1 (by norm_num) (by norm_num),
    (urgency_thresholds 20).2.2.2 (by norm_num)⟩

/-- C7: urgency is a non-increasing step function of runway days — for
d1 ≤ d2 the tier at d2 is at most as urgent as the tier at d1 under the
ordering critical > urgent > focused > comfortable. -/
theorem urgency_monotone (d1 d2 : Rat) (h : d1 ≤ d2) :
    urgencyRank (getUrgencyLevel d2) ≤ urgencyRank (getUrgencyLevel d1) := by
  simp only [getUrgencyLevel]
  split_ifs <;> first | decide | linarith

/-- Witness for C7 at d1 = 3, d2 = 8. -/
theorem urgency_monotone_witness :
    urgencyRank (getUrgencyLevel 8) ≤ urgencyRank (getUrgencyLevel 3) :=
  urgency_monotone 3 8 (by norm_num)

theorem lookup_map_override (upd base : List (String × KMValue)) (k : String) :
    (base.map (fun p =>
        match upd.lookup p.1 with
        | some v => (p.1, v)
        | none => p)).lookup k
      = (base.lookup k).map (fun v => (upd.lookup k).getD v) := by
  induction base with
  | nil => simp
  | cons p rest ih =>
    rcases p with ⟨k0, v0⟩
    by_cases hk : (k == k0) = true
    · have hkeq : k = k0 := by simpa using hk
      subst hkeq
      rcases hu : upd.lookup k with _ | v <;> simp [List.lookup, hu]
    · rcases hu : upd.lookup k0 with _ | v <;> simp [List.lookup, hk, hu, ih]

theorem lookup_filter_isNone (base upd : List (String × KMValue)) (k : String) :
    (upd.filter (fun p => (base.lookup p.1).isNone)).lookup k
      = if (base.lookup k).isNone then upd.lookup k else none := by
  induction upd with
  | nil => simp
  | cons p rest ih =>
    rcases p with ⟨k1, v1⟩
    by_cases hk : (k == k1) = true
    · have hkeq : k = k1 := by simpa using hk
      subst hkeq
      rcases hb : (base.lookup k).isNone with _ | _
      · simp [List.filter_cons, hb, List.lookup, ih]
      · simp [List.filter_cons, hb, List.lookup]
    · rcases hb1 : (base.lookup k1).isNone with _ | _ <;>
        simp [List.filter_cons, hb1, List.lookup, hk, ih]

theorem lookup_append_orElse (l1 l2 : List (String × KMValue)) (k : String) :
    (l1 ++ l2).lookup k = (l1.lookup k).orElse (fun _ => l2.lookup k) := by
  induction l1 with
  | nil => simp [Option.orElse]
  | cons p rest ih =>
    rcases p with ⟨k0, v0⟩
    by_cases hk : (k == k0) = true <;> simp [List.lookup, hk, ih, Option.orElse]

theorem spreadMerge_lookup (base upd : List (String × KMValue)) (k : String) :
    (spreadMerge base upd).lookup k = (upd.lookup k).orElse (fun _ => base.lookup k) := by
  rw [spreadMerge, lookup_append_orElse, lookup_map_override, lookup_filter_isNone]
  rcases hb : base.lookup k with _ | v <;> rcases hu : upd.lookup k with _ | w <;>
    simp [Option.orElse, hb, hu]

/-- C8: `updateMetrics` replaces each scalar field present in the update,
shallow-merges `keyMetrics` (update entries win, other entries kept), leaves
absent fields unchanged, updates the cache, and persists the full merged
record to disk. -/
theorem update_metrics_merge (s : MetricsState) (m : Metrics) (p : MetricsUpdate)
    (h : s.cache = some m) :
    (updateMetrics s p).1.thingsShipped = p.thingsShipped.getD m.thingsShipped
    ∧ (updateMetrics s p).1.revenueTotal = p.revenueTotal.getD m.revenueTotal
    ∧ (updateMetrics s p).1.currentStrategy = p.currentStrategy.getD m.currentStrategy
    ∧ (∀ k, (updateMetrics s p).1.keyMetrics.lookup k =
        ((p.keyMetrics.getD []).lookup k).orElse (fun _ => m.keyMetrics.lookup k))
    ∧ (updateMetrics s p).2 =
        ⟨some (updateMetrics s p).1, .valid (updateMetrics s p).1⟩ := by
  simp [updateMetrics, getMetrics, h, applyUpdate, spreadMerge_lookup]

/-- Witness for C8 at a concrete cached state and update. -/
theorem update_metrics_merge_witness :
    (updateMetrics ⟨some ⟨1, 2, "s", [("a", .num 1), ("b", .str "x")]⟩, .absent⟩
        ⟨some 3, none, none, some [("b", .str "y"), ("c", .bool true)]⟩).1.thingsShipped =
      (some (3 : Rat)).getD 1
    ∧ (updateMetrics ⟨some ⟨1, 2, "s", [("a", .num 1), ("b", .str "x")]⟩, .absent⟩
        ⟨some 3, none, none, some [("b", .str "y"), ("c", .bool true)]⟩).1.revenueTotal =
      (none : Option Rat).getD 2
    ∧ (updateMetrics ⟨some ⟨1, 2, "s", [("a", .num 1), ("b", .str "x")]⟩, .absent⟩
        ⟨some 3, none, none, some [("b", .str "y"), ("c", .bool true)]⟩).1.currentStrategy =
      (none : Option String).getD "s"
    ∧ (∀ k, (updateMetrics ⟨some ⟨1, 2, "s", [("a", .num 1), ("b", .str "x")]⟩, .absent⟩
        ⟨some 3, none, none, some [("b", .str "y"), ("c", .bool true)]⟩).1.keyMetrics.lookup k =
      (((some [("b", KMValue.str "y"), ("c", KMValue.bool true)]).getD []).lookup k).orElse
        (fun _ => [("a", KMValue.num 1), ("b", KMValue.str "x")].lookup k))
    ∧ (updateMetrics ⟨some ⟨1, 2, "s", [("a", .num 1), ("b", .str "x")]⟩, .absent⟩
        ⟨some 3, none, none, some [("b", .str "y"), ("c", .bool true)]⟩).2 =
      ⟨some (updateMetrics ⟨some ⟨1, 2, "s", [("a", .num 1), ("b", .str "x")]⟩, .absent⟩
          ⟨some 3, none, none, some [("b", .str "y"), ("c", .bool true)]⟩).1,
        .valid (updateMetrics ⟨some ⟨1, 2, "s", [("a", .num 1), ("b", .str "x")]⟩, .absent⟩
          ⟨some 3, none, none, some [("b", .str "y"), ("c", .bool true)]⟩).1⟩ :=
  update_metrics_merge ⟨some ⟨1, 2, "s", [("a", .num 1), ("b", .str "x")]⟩, .absent⟩
    ⟨1, 2, "s", [("a", .num 1), ("b", .str "x")]⟩
    ⟨some 3, none, none, some [("b", .str "y"), ("c", .bool true)]⟩ rfl

/-- C9: registering with an invalid cron expression logs an error, leaves the
registry unchanged and keeps the name out of the status list; registering with
a valid expression appends the `(name, schedule)` pair. -/
theorem register_task_validation
    (validate : String → Bool) (tasks : List ScheduledTask) (name schedule : String) :
    (validate schedule = false →
      (registerTask validate tasks name schedule).1 = tasks
      ∧ (registerTask validate tasks name schedule).2.isSome = true
      ∧ (name ∉ (getSchedulerStatus tasks).map Prod.fst →
          name ∉ (getSchedulerStatus
            (registerTask validate tasks name schedule).1).map Prod.fst))
    ∧ (validate schedule = true →
      (registerTask validate tasks name schedule).1 = tasks ++ [⟨name, schedule⟩]
      ∧ getSchedulerStatus (registerTask validate tasks name schedule).1 =
          getSchedulerStatus tasks ++ [(name, schedule)]) := by
  constructor
  · intro hv
    simp [registerTask, hv]
  · intro hv
    simp [registerTask, getSchedulerStatus, hv]

/-- Witness for C9 at a rejecting validator and an accepting one. -/
theorem register_task_validation_witness :
    (registerTask (fun _ => false) [] "badTask" "not-a-cron").1 = []
    ∧ (registerTask (fun _ => false) [] "badTask" "not-a-cron").2.isSome = true
    ∧ "badTask" ∉ (getSchedulerStatus
        (registerTask (fun _ => false) [] "badTask" "not-a-cron").1).map Prod.fst
    ∧ (registerTask (fun _ => true) [] "goodTask" "50 * * * *").1 =
        [⟨"goodTask", "50 * * * *"⟩] := by
  have h1 := (register_task_validation (fun _ => false) [] "badTask" "not-a-cron").1 rfl
  have h2 := (register_task_validation (fun _ => true) [] "goodTask" "50 * * * *").2 rfl
  exact ⟨h1.1, h1.2.1, h1.2.2 (by simp [getSchedulerStatus]), h2.1⟩

/-- C10: `getMetrics` is a total function (it cannot raise), and with a cold
cache it returns the default record both when the metrics file is absent and
when the file contents fail to parse as JSON; the default record is
`thingsShipped 0, revenueTotal 0, currentStrategy "", keyMetrics empty`. -/
theorem get_metrics_defaults_on_missing_or_corrupt :
    getMetrics ⟨none, .absent⟩ = (DEFAULT_METRICS, ⟨some DEFAULT_METRICS, .absent⟩)
    ∧ (∀ raw : String, getMetrics ⟨none, .corrupt raw⟩ =
        (DEFAULT_METRICS, ⟨some DEFAULT_METRICS, .corrupt raw⟩))
    ∧ DEFAULT_METRICS = ⟨0, 0, "", []⟩ :=
  ⟨rfl, fun _ => rfl, rfl⟩

end Alien
